import Mathlib

/-!
Verification of `pytest_letp/lib/sim_lib.py` (SIM configuration resolution).

The module is embedded shallowly:

* XML elements (as produced by `lxml.etree`) become the inductive `XML`:
  a tag, an optional text, and a list of child elements, with `find`,
  `findall` and `findtext` following the ElementTree path semantics used
  by the source (`findtext` returns `""` for a matching element whose
  text is absent).
* Python strings stay `String`; the substring test `needle in hay` is
  `strContains hay needle`; `s.split(",")` is `pySplitComma s`.
* Arguments that may be `None` or a non-string (the `iccid` / `imsi`
  parameters of `parse_sim_info`) become the type `PyVal`.
* Code that can raise (`AttributeError` from `None.text` / `None.split`,
  `TypeError` from `None in str` or iterating `None`) returns
  `Except PyErr _`.
* The ambient `TestConfig.default_cfg.get_site()` singleton becomes an
  explicit `site : Option String` parameter.
* `swilog.warning` calls become a `List String` of emitted warnings in
  the result.
-/

namespace SimLib

/-- An XML element: tag, optional text content, child elements
(the shape `lxml.etree` exposes to `sim_lib.py`). -/
inductive XML where
  | mk (tag : String) (text : Option String) (children : List XML)

def XML.tag : XML → String
  | .mk t _ _ => t

def XML.text : XML → Option String
  | .mk _ t _ => t

def XML.children : XML → List XML
  | .mk _ _ c => c

/-- All elements reached from `x` along the tag path `p`, in document
order: ElementTree `findall` for a slash-separated path of plain tags. -/
def XML.findall (x : XML) : List String → List XML
  | [] => [x]
  | t :: rest => (x.children.filter (fun c => c.tag = t)).flatMap (fun c => c.findall rest)

/-- ElementTree `find`: the first element matching the path, if any. -/
def XML.find (x : XML) (p : List String) : Option XML :=
  (x.findall p).head?

/-- ElementTree `findtext`: text of the first element matching the path;
`""` when that element has no text, `none` when no element matches. -/
def XML.findtext (x : XML) (p : List String) : Option String :=
  match x.find p with
  | none => none
  | some e => some (e.text.getD "")

/-- Test that `needle` occurs contiguously somewhere in `hay` (character lists). -/
def listHasInfix : List Char → List Char → Bool
  | [], needle => needle.isEmpty
  | h :: t, needle => needle.isPrefixOf (h :: t) || listHasInfix t needle

/-- Python `needle in hay` for strings: `needle` occurs contiguously
somewhere in `hay` (the empty needle occurs in every string). -/
def strContains (hay needle : String) : Bool :=
  listHasInfix hay.data needle.data

/-- Split a character list at every occurrence of `c` (the separator is
dropped; empty groups are kept, so the result is never empty). -/
def charsSplit (c : Char) : List Char → List (List Char)
  | [] => [[]]
  | h :: t =>
    if h == c then
      [] :: charsSplit c t
    else
      match charsSplit c t with
      | [] => [[h]]
      | g :: gs => (h :: g) :: gs

/-- Python `s.split(",")`: comma-separated pieces, `[""]` for the empty
string. -/
def pySplitComma (s : String) : List String :=
  (charsSplit ',' s.data).map String.mk

/-- The exceptions `sim_lib.py` can raise during a lookup:
`AttributeError` (`None.text`, `None.split`) and `TypeError`
(`None in str`, iterating `None`). -/
inductive PyErr where
  | attributeError
  | typeError
deriving DecidableEq, Repr

/-- A Python value passed for the `iccid` / `imsi` parameters:
`None`, a string, or a value of some other type. -/
inductive PyVal where
  | none
  | str (s : String)
  | other
deriving DecidableEq, Repr

/-- The guard `x is None or not isinstance(x, str) or x == ""` used on
both parameters of `parse_sim_info`. -/
def pyStrInvalid : PyVal → Bool
  | .str s => s == ""
  | _ => true

/-- The string carried by a `PyVal` once the guard has passed. -/
def pyStrVal : PyVal → String
  | .str s => s
  | _ => ""

/-- The `SimInfo` namedtuple:
`Carrier,APN,APN_TCP,PDP,Band,Iccid,Imsi,Mcc,Mnc,Tel,Pin,Puk,Smsc`. -/
structure SimInfo where
  Carrier : String
  APN : Option String
  APN_TCP : Option String
  PDP : Option String
  Band : Option String
  Iccid : Option String
  Imsi : Option String
  Mcc : Option String
  Mnc : Option String
  Tel : Option String
  Pin : Option String
  Puk : Option String
  Smsc : Option String
deriving DecidableEq, Repr

/-- Source `validate(element, iccid, imsi)`: the element's comma-separated
`ICCID_prefix` entries are tested for containment in `iccid`; when
`imsi` is truthy (non-empty) its `IMSI_prefixes` entries are tested for
containment in `imsi`.  `element.find(...).text.split(",")` raises
`AttributeError` when the child is missing or its text is `None`. -/
def validate (element : XML) (iccid imsi : String) : Except PyErr Bool :=
  match element.find ["ICCID_prefix"] with
  | none => .error .attributeError
  | some pe =>
    match pe.text with
    | none => .error .attributeError
    | some tI =>
      if (pySplitComma tI).any (fun curr => strContains iccid curr) then
        if imsi ≠ "" then
          match element.find ["IMSI_prefixes"] with
          | none => .error .attributeError
          | some qe =>
            match qe.text with
            | none => .error .attributeError
            | some tM =>
              if (pySplitComma tM).any (fun curr => strContains imsi curr) then
                .ok true
              else
                .ok false
        else
          .ok true
      else
        .ok false

/-- Source `SimDBParser._get_sim_info_detail(element, path)`:
`element.find(path).text`, with the `AttributeError` from a missing
child caught and turned into `None`. -/
def get_sim_info_detail (element : XML) (path : String) : Option String :=
  match element.find [path] with
  | none => none
  | some e => e.text

/-- Source `SimDBParser._get_sim_detail(sim_type, detail)`:
`root.findtext("simdb/Operator/" + sim_type + "/" + detail)`. -/
def get_sim_detail (root : XML) (sim_type detail : String) : Option String :=
  root.findtext ["simdb", "Operator", sim_type, detail]

/-- Source `SimDBParser.get_sim_apn`. -/
def get_sim_apn (root : XML) (sim_type : String) : Option String :=
  get_sim_detail root sim_type "APN"

/-- Source `SimDBParser.get_sim_apn_tcp`. -/
def get_sim_apn_tcp (root : XML) (sim_type : String) : Option String :=
  get_sim_detail root sim_type "APN_TCP"

/-- Source `SimDBParser.get_sim_pdp`. -/
def get_sim_pdp (root : XML) (sim_type : String) : Option String :=
  get_sim_detail root sim_type "PDP"

/-- Source `SimDBParser.get_rf_band`. -/
def get_rf_band (root : XML) (sim_type : String) : Option String :=
  get_sim_detail root sim_type "Band"

/-- Source `SimDBParser.get_sim_carrier(sim_element)`: the element's tag; when
the tag contains `"Amarisoft"` and a site is configured, the literal
string `"Amarisoft_" + site` replaces it. -/
def get_sim_carrier (site : Option String) (sim_element : XML) : String :=
  let carrier := sim_element.tag
  if strContains carrier "Amarisoft" then
    match site with
    | some s => "Amarisoft_" ++ s
    | none => carrier
  else
    carrier

/-- The data captured by the detail (`uicc`) scan of `parse_sim_info`
when a record matches: the fallback `apn` plus the eight `sim_info`
fields, appended in source order. -/
structure DetailInfo where
  apn : Option String
  iccid : Option String
  imsi : Option String
  mcc : Option String
  mnc : Option String
  tel : Option String
  pin : Option String
  puk : Option String
  smsc : Option String
deriving DecidableEq, Repr

/-- The loop `for uicc in self.root.findall("simdb/uicc")` of
`parse_sim_info`: `uicc.find("iccid").text` raises `AttributeError`
when the `iccid` child is missing, `curr_iccid in iccid` raises
`TypeError` when its text is `None`; the first record whose `iccid`
text occurs in the device `iccid` is captured and the loop breaks. -/
def detailScan (iccid : String) : List XML → Except PyErr (Option DetailInfo)
  | [] => .ok none
  | uicc :: rest =>
    match uicc.find ["iccid"] with
    | none => .error .attributeError
    | some iccidElem =>
      match iccidElem.text with
      | none => .error .typeError
      | some curr =>
        if strContains iccid curr then
          .ok (some
            { apn := get_sim_info_detail uicc "apn"
              iccid := get_sim_info_detail uicc "iccid"
              imsi := get_sim_info_detail uicc "imsi"
              mcc := get_sim_info_detail uicc "mcc"
              mnc := get_sim_info_detail uicc "mnc"
              tel := get_sim_info_detail uicc "tel"
              pin := get_sim_info_detail uicc "pin"
              puk := get_sim_info_detail uicc "puk"
              smsc := get_sim_info_detail uicc "smsc" })
        else
          detailScan iccid rest

/-- The `sim_tuple = [carrier, apn, apn_tcp, pdp, band]` built when an
operator record validates. -/
structure OpTuple where
  carrier : String
  apn : Option String
  apn_tcp : Option String
  pdp : Option String
  band : Option String
deriving DecidableEq, Repr

/-- The body of the operator loop at a validating element: derive the
carrier, keep the detail-scan `apn` unless it is `None` (then fetch the
operator configuration's APN), and fetch `APN_TCP`, `PDP`, `Band` by
carrier name. -/
def opMatched (root : XML) (site : Option String) (apn0 : Option String) (e : XML) : OpTuple :=
  let carrier := get_sim_carrier site e
  { carrier := carrier
    apn := match apn0 with
           | none => get_sim_apn root carrier
           | some a => some a
    apn_tcp := get_sim_apn_tcp root carrier
    pdp := get_sim_pdp root carrier
    band := get_rf_band root carrier }

/-- The loop `for element in sim_elements` of `parse_sim_info`: first
element passing `validate` wins and the loop breaks; the `for`/`else`
yields no tuple when every element fails. -/
def operatorScan (root : XML) (site : Option String) (iccid imsi : String)
    (apn0 : Option String) : List XML → Except PyErr (Option OpTuple)
  | [] => .ok none
  | e :: rest =>
    match validate e iccid imsi with
    | .error err => .error err
    | .ok true => .ok (some (opMatched root site apn0 e))
    | .ok false => operatorScan root site iccid imsi apn0 rest

/-- The value of the `apn` variable after the detail scan: the matched
detail record's `apn` when one matched, else `None`. -/
def detailApn : Option DetailInfo → Option String
  | some di => di.apn
  | none => none

/-- Source `sim_tuple.extend(sim_info if is_detail_info else [None] * 8)`
followed by `SimInfo._make(sim_tuple)`. -/
def mkSimInfo (t : OpTuple) (d : Option DetailInfo) : SimInfo :=
  { Carrier := t.carrier
    APN := t.apn
    APN_TCP := t.apn_tcp
    PDP := t.pdp
    Band := t.band
    Iccid := match d with | some di => di.iccid | none => none
    Imsi := match d with | some di => di.imsi | none => none
    Mcc := match d with | some di => di.mcc | none => none
    Mnc := match d with | some di => di.mnc | none => none
    Tel := match d with | some di => di.tel | none => none
    Pin := match d with | some di => di.pin | none => none
    Puk := match d with | some di => di.puk | none => none
    Smsc := match d with | some di => di.smsc | none => none }

/-- Source `SimDBParser.parse_sim_info(iccid, imsi)`.  Result: either a raised
exception, or a normal return (`Option SimInfo`) together with the list
of warnings logged.  `self.root.find("simdb/Operator")` being `None`
makes the following `for` raise `TypeError`. -/
def parse_sim_info (root : XML) (site : Option String) (iccidV imsiV : PyVal) :
    Except PyErr (Option SimInfo × List String) :=
  if pyStrInvalid iccidV then
    .ok (none, ["No ICCID from current device"])
  else if pyStrInvalid imsiV then
    .ok (none, ["No IMSI from current device"])
  else
    let iccid := pyStrVal iccidV
    let imsi := pyStrVal imsiV
    match detailScan iccid (root.findall ["simdb", "uicc"]) with
    | .error err => .error err
    | .ok d =>
      match root.find ["simdb", "Operator"] with
      | none => .error .typeError
      | some sim_elements =>
        match operatorScan root site iccid imsi (detailApn d) sim_elements.children with
        | .error err => .error err
        | .ok none => .ok (none, ["Unable to parse Sim Information"])
        | .ok (some t) => .ok (some (mkSimInfo t d), [])

/-- State-passing form of a lookup: the parsed document is the state;
`parse_sim_info` only reads it (`find` / `findall` / `findtext`), so the
state after the call is the state before. -/
def parse_sim_info_st (root : XML) (site : Option String) (iccidV imsiV : PyVal) :
    Except PyErr (Option SimInfo × List String) × XML :=
  (parse_sim_info root site iccidV imsiV, root)

/-- A sequence of lookups against one resolver instance, threading the
parsed document through each call. -/
def resolveSeq (site : Option String) : XML → List (PyVal × PyVal) →
    List (Except PyErr (Option SimInfo × List String)) × XML
  | root, [] => ([], root)
  | root, (i, m) :: rest =>
    let step := parse_sim_info_st root site i m
    let tail := resolveSeq site step.2 rest
    (step.1 :: tail.1, tail.2)

/-- Modelled from the spec's wording of the operator matching condition,
for a record whose `ICCID_prefix` text is `tI` and whose `IMSI_prefixes`
text is `tM`: at least one comma-separated `ICCID_prefix` entry occurs
as a substring anywhere inside `iccid`, and, when `imsi` is non-empty,
at least one comma-separated `IMSI_prefixes` entry occurs as a substring
of `imsi`. -/
def specOperatorMatch (iccid imsi tI tM : String) : Bool :=
  ((pySplitComma tI).any (fun p => strContains iccid p)) &&
  ((imsi == "") || (pySplitComma tM).any (fun p => strContains imsi p))

/-- A `uicc` record shaped so that the detail scan cannot raise: it has
an `iccid` child with text. -/
def wfUicc (u : XML) : Prop :=
  ∃ e t, u.find ["iccid"] = some e ∧ e.text = some t

/-- An operator record shaped so that `validate` cannot raise: it has
`ICCID_prefix` and `IMSI_prefixes` children with text. -/
def wfOperatorRecord (x : XML) : Prop :=
  (∃ e t, x.find ["ICCID_prefix"] = some e ∧ e.text = some t) ∧
  (∃ e t, x.find ["IMSI_prefixes"] = some e ∧ e.text = some t)

theorem validate_eq_spec (x pe qe : XML) (tI tM iccid imsi : String)
    (h1 : x.find ["ICCID_prefix"] = some pe) (h2 : pe.text = some tI)
    (h3 : x.find ["IMSI_prefixes"] = some qe) (h4 : qe.text = some tM) :
    validate x iccid imsi = .ok (specOperatorMatch iccid imsi tI tM) := by
  simp only [validate, specOperatorMatch, h1, h2, h3, h4]
  by_cases hI : ((pySplitComma tI).any (fun curr => strContains iccid curr) : Prop)
  · by_cases hm : imsi = ""
    · simp [hI, hm]
    · by_cases hM : ((pySplitComma tM).any (fun curr => strContains imsi curr) : Prop)
      · simp [hI, hm, hM]
      · simp [hI, hm, hM]
  · simp [hI]

theorem validate_ok_of_wf (x : XML) (iccid imsi : String) (hwf : wfOperatorRecord x) :
    ∃ b, validate x iccid imsi = .ok b := by
  obtain ⟨⟨pe, tI, h1, h2⟩, ⟨qe, tM, h3, h4⟩⟩ := hwf
  exact ⟨_, validate_eq_spec x pe qe tI tM iccid imsi h1 h2 h3 h4⟩

theorem operatorScan_cons_true (root : XML) (site : Option String) (iccid imsi : String)
    (apn0 : Option String) (e : XML) (rest : List XML)
    (h : validate e iccid imsi = .ok true) :
    operatorScan root site iccid imsi apn0 (e :: rest) =
      .ok (some (opMatched root site apn0 e)) := by
  simp only [operatorScan, h]

theorem operatorScan_cons_false (root : XML) (site : Option String) (iccid imsi : String)
    (apn0 : Option String) (e : XML) (rest : List XML)
    (h : validate e iccid imsi = .ok false) :
    operatorScan root site iccid imsi apn0 (e :: rest) =
      operatorScan root site iccid imsi apn0 rest := by
  conv_lhs => rw [operatorScan]
  rw [h]

theorem operatorScan_skip (root : XML) (site : Option String) (iccid imsi : String)
    (apn0 : Option String) (pre l : List XML)
    (h : ∀ x ∈ pre, validate x iccid imsi = .ok false) :
    operatorScan root site iccid imsi apn0 (pre ++ l) =
      operatorScan root site iccid imsi apn0 l := by
  induction pre with
  | nil => rfl
  | cons a t ih =>
    rw [List.cons_append,
      operatorScan_cons_false root site iccid imsi apn0 a (t ++ l) (h a (by simp))]
    exact ih (fun x hx => h x (by simp [hx]))

theorem operatorScan_first (root : XML) (site : Option String) (iccid imsi : String)
    (apn0 : Option String) (pre post : List XML) (e : XML)
    (hpre : ∀ x ∈ pre, validate x iccid imsi = .ok false)
    (he : validate e iccid imsi = .ok true) :
    operatorScan root site iccid imsi apn0 (pre ++ e :: post) =
      .ok (some (opMatched root site apn0 e)) :=
  (operatorScan_skip root site iccid imsi apn0 pre (e :: post) hpre).trans
    (operatorScan_cons_true root site iccid imsi apn0 e post he)

theorem operatorScan_none (root : XML) (site : Option String) (iccid imsi : String)
    (apn0 : Option String) (l : List XML)
    (h : ∀ x ∈ l, validate x iccid imsi = .ok false) :
    operatorScan root site iccid imsi apn0 l = .ok none := by
  induction l with
  | nil => rfl
  | cons a t ih =>
    rw [operatorScan_cons_false root site iccid imsi apn0 a t (h a (by simp))]
    exact ih (fun x hx => h x (by simp [hx]))

theorem operatorScan_ok_of_wf (root : XML) (site : Option String) (iccid imsi : String)
    (apn0 : Option String) (l : List XML)
    (h : ∀ x ∈ l, wfOperatorRecord x) :
    ∃ v, operatorScan root site iccid imsi apn0 l = .ok v := by
  induction l with
  | nil => exact ⟨none, rfl⟩
  | cons a t ih =>
    obtain ⟨b, hb⟩ := validate_ok_of_wf a iccid imsi (h a (by simp))
    cases b with
    | true => exact ⟨_, operatorScan_cons_true root site iccid imsi apn0 a t hb⟩
    | false =>
      obtain ⟨v, hv⟩ := ih (fun x hx => h x (by simp [hx]))
      exact ⟨v, (operatorScan_cons_false root site iccid imsi apn0 a t hb).trans hv⟩

theorem operatorScan_mem (root : XML) (site : Option String) (iccid imsi : String)
    (apn0 : Option String) (l : List XML) (t : OpTuple)
    (h : operatorScan root site iccid imsi apn0 l = .ok (some t)) :
    ∃ e, e ∈ l ∧ t = opMatched root site apn0 e := by
  induction l with
  | nil => simp [operatorScan] at h
  | cons a rest ih =>
    unfold operatorScan at h
    cases hv : validate a iccid imsi with
    | error err => rw [hv] at h; cases h
    | ok b =>
      rw [hv] at h
      cases b with
      | true =>
        refine ⟨a, by simp, ?_⟩
        have := (Except.ok.inj h)
        exact (Option.some.inj this).symm
      | false =>
        obtain ⟨e, he, ht⟩ := ih h
        exact ⟨e, by simp [he], ht⟩

theorem detailScan_ok_of_wf (iccid : String) (l : List XML)
    (h : ∀ u ∈ l, wfUicc u) :
    ∃ v, detailScan iccid l = .ok v := by
  induction l with
  | nil => exact ⟨none, rfl⟩
  | cons u rest ih =>
    obtain ⟨e, t, he, ht⟩ := h u (by simp)
    simp only [detailScan, he, ht]
    by_cases hc : (strContains iccid t : Prop)
    · rw [if_pos hc]
      exact ⟨_, rfl⟩
    · rw [if_neg hc]
      exact ih (fun x hx => h x (by simp [hx]))

theorem opMatched_carrier (root : XML) (site : Option String) (apn0 : Option String)
    (e : XML) : (opMatched root site apn0 e).carrier = get_sim_carrier site e := rfl

theorem opMatched_apn_none (root : XML) (site : Option String) (e : XML) :
    (opMatched root site none e).apn = get_sim_apn root (get_sim_carrier site e) := rfl

theorem opMatched_apn_some (root : XML) (site : Option String) (a : String) (e : XML) :
    (opMatched root site (some a) e).apn = some a := rfl

theorem parse_eq_error_detail (root : XML) (site : Option String) (iv mv : PyVal)
    (err : PyErr)
    (hiv : pyStrInvalid iv = false) (hmv : pyStrInvalid mv = false)
    (hd : detailScan (pyStrVal iv) (root.findall ["simdb", "uicc"]) = .error err) :
    parse_sim_info root site iv mv = .error err := by
  simp only [parse_sim_info, hiv, hmv, Bool.false_eq_true, if_false]
  rw [hd]

theorem parse_eq_error_noop (root : XML) (site : Option String) (iv mv : PyVal)
    (d : Option DetailInfo)
    (hiv : pyStrInvalid iv = false) (hmv : pyStrInvalid mv = false)
    (hd : detailScan (pyStrVal iv) (root.findall ["simdb", "uicc"]) = .ok d)
    (hop : root.find ["simdb", "Operator"] = none) :
    parse_sim_info root site iv mv = .error .typeError := by
  simp only [parse_sim_info, hiv, hmv, Bool.false_eq_true, if_false]
  rw [hd, hop]

theorem parse_eq_of_scan (root : XML) (site : Option String) (iv mv : PyVal)
    (d : Option DetailInfo) (sim_elements : XML)
    (hiv : pyStrInvalid iv = false) (hmv : pyStrInvalid mv = false)
    (hd : detailScan (pyStrVal iv) (root.findall ["simdb", "uicc"]) = .ok d)
    (hop : root.find ["simdb", "Operator"] = some sim_elements) :
    parse_sim_info root site iv mv =
      match operatorScan root site (pyStrVal iv) (pyStrVal mv)
          (detailApn d) sim_elements.children with
      | .error err => .error err
      | .ok none => .ok (none, ["Unable to parse Sim Information"])
      | .ok (some t) => .ok (some (mkSimInfo t d), []) := by
  simp only [parse_sim_info, hiv, hmv, Bool.false_eq_true, if_false]
  rw [hd, hop]

theorem parse_success_elim (root : XML) (site : Option String) (iv mv : PyVal)
    (si : SimInfo) (log : List String)
    (h : parse_sim_info root site iv mv = .ok (some si, log)) :
    ∃ d sim_elements t,
      detailScan (pyStrVal iv) (root.findall ["simdb", "uicc"]) = .ok d ∧
      root.find ["simdb", "Operator"] = some sim_elements ∧
      operatorScan root site (pyStrVal iv) (pyStrVal mv)
        (detailApn d) sim_elements.children =
        .ok (some t) ∧
      si = mkSimInfo t d ∧ log = [] := by
  cases hiv : pyStrInvalid iv with
  | true => simp [parse_sim_info, hiv] at h
  | false =>
  cases hmv : pyStrInvalid mv with
  | true => simp [parse_sim_info, hiv, hmv] at h
  | false =>
  cases hd : detailScan (pyStrVal iv) (root.findall ["simdb", "uicc"]) with
  | error err =>
    rw [parse_eq_error_detail root site iv mv err hiv hmv hd] at h
    cases h
  | ok d =>
  cases hop : root.find ["simdb", "Operator"] with
  | none =>
    rw [parse_eq_error_noop root site iv mv d hiv hmv hd hop] at h
    cases h
  | some sim_elements =>
  rw [parse_eq_of_scan root site iv mv d sim_elements hiv hmv hd hop] at h
  cases hsc : operatorScan root site (pyStrVal iv) (pyStrVal mv)
      (detailApn d) sim_elements.children with
  | error err => rw [hsc] at h; cases h
  | ok r =>
    rw [hsc] at h
    cases r with
    | none => simp at h
    | some t =>
      simp only [Except.ok.injEq, Prod.mk.injEq, Option.some.injEq] at h
      exact ⟨d, sim_elements, t, rfl, rfl, hsc, h.1.symm, h.2.symm⟩

/-- A leaf element carrying text. -/
def leaf (tag txt : String) : XML := .mk tag (some txt) []

/-- Example operator record named `Telus`. -/
def telusRec : XML := .mk "Telus" none
  [leaf "ICCID_prefix" "89302", leaf "IMSI_prefixes" "302",
   leaf "APN" "telus.apn", leaf "APN_TCP" "telus.tcp", leaf "PDP" "IP", leaf "Band" "4"]

/-- Example detail (`uicc`) record with all nine child fields. -/
def uiccRec : XML := .mk "uicc" none
  [leaf "iccid" "8930212345", leaf "imsi" "302720508", leaf "mcc" "302", leaf "mnc" "720",
   leaf "tel" "5145551234", leaf "pin" "1234", leaf "puk" "12345678",
   leaf "smsc" "+15149931234"]

/-- Operator section holding only the `Telus` record. -/
def opsE1 : XML := .mk "Operator" none [telusRec]

/-- Database with one detail record and one operator record. -/
def db1 : XML := .mk "root" none [.mk "simdb" none [uiccRec, opsE1]]

/-- The `SimInfo` produced by a fully matching lookup against `db1`. -/
def si1val : SimInfo :=
  ⟨"Telus", some "telus.apn", some "telus.tcp", some "IP", some "4",
   some "8930212345", some "302720508", some "302", some "720",
   some "5145551234", some "1234", some "12345678", some "+15149931234"⟩

/-- The `SimInfo` produced against `db1` when only the operator record
matches (no detail record). -/
def si9val : SimInfo :=
  ⟨"Telus", some "telus.apn", some "telus.tcp", some "IP", some "4",
   none, none, none, none, none, none, none, none⟩

/-- Operator record whose tag contains `"Amarisoft"` strictly. -/
def amariNRRec : XML := .mk "AmarisoftNR" none
  [leaf "ICCID_prefix" "893", leaf "IMSI_prefixes" "208",
   leaf "APN" "amari.apn", leaf "APN_TCP" "amari.tcp", leaf "PDP" "IP", leaf "Band" "7"]

/-- Operator section holding only the `AmarisoftNR` record. -/
def opsE2 : XML := .mk "Operator" none [amariNRRec]

/-- Database with the `AmarisoftNR` operator record and no detail records. -/
def db2 : XML := .mk "root" none [.mk "simdb" none [opsE2]]

/-- The `SimInfo` produced against `db2` with site `QA`. -/
def si2val : SimInfo :=
  ⟨"Amarisoft_QA", none, none, none, none, none, none, none, none, none, none, none, none⟩

/-- Operator record tagged exactly `Amarisoft`, with configuration fields. -/
def amariRec3 : XML := .mk "Amarisoft" none
  [leaf "ICCID_prefix" "893", leaf "IMSI_prefixes" "208", leaf "APN" "amari.apn",
   leaf "APN_TCP" "amari.tcp", leaf "PDP" "IP", leaf "Band" "7"]

/-- Operator section holding only `amariRec3`. -/
def opsE3 : XML := .mk "Operator" none [amariRec3]

/-- Database with the `Amarisoft` operator record and no detail records. -/
def db3 : XML := .mk "root" none [.mk "simdb" none [opsE3]]

/-- Detail record missing its `iccid` child (structurally degenerate). -/
def uiccRecBad : XML := .mk "uicc" none [leaf "apn" "x.apn"]

/-- Database whose detail record lacks the `iccid` child. -/
def db4 : XML := .mk "root" none [.mk "simdb" none [uiccRecBad, opsE1]]

/-- Detail record with an `iccid` and an `apn` but nothing else. -/
def uiccRecB : XML := .mk "uicc" none [leaf "iccid" "000123", leaf "apn" "misc.apn"]

/-- The `DetailInfo` captured for `uiccRecB`. -/
def di7 : DetailInfo :=
  ⟨some "misc.apn", some "000123", none, none, none, none, none, none, none⟩

/-- Database where a detail record can match an `iccid` that no operator
record matches. -/
def db7 : XML := .mk "root" none [.mk "simdb" none [uiccRecB, opsE1]]

/-- Detail record with an `iccid` and a non-absent `apn`. -/
def uiccRec5 : XML := .mk "uicc" none [leaf "iccid" "8930", leaf "apn" "detail.apn"]

/-- Database where both the detail record and the operator record match,
and the detail record carries an overriding `apn`. -/
def db5 : XML := .mk "root" none [.mk "simdb" none [uiccRec5, opsE1]]

/-- The `DetailInfo` captured for `uiccRec5`. -/
def di5 : DetailInfo :=
  ⟨some "detail.apn", some "8930", none, none, none, none, none, none, none⟩

/-- The `SimInfo` produced against `db5` (detail APN overrides). -/
def si5val : SimInfo :=
  ⟨"Telus", some "detail.apn", some "telus.tcp", some "IP", some "4",
   some "8930", none, none, none, none, none, none, none⟩

/-- Operator record tagged `Amarisoft` whose only configuration field is
its `APN`. -/
def amariRec9 : XML := .mk "Amarisoft" none
  [leaf "ICCID_prefix" "893", leaf "IMSI_prefixes" "208", leaf "APN" "op.apn"]

/-- Operator section holding only `amariRec9`. -/
def opsE9 : XML := .mk "Operator" none [amariRec9]

/-- Database with the `Amarisoft` operator record (APN configured) and
no detail records. -/
def db9 : XML := .mk "root" none [.mk "simdb" none [opsE9]]

/-- C1, counterexample: with the `Telus` operator record matching the
ICCID (and even `validate` succeeding on an empty IMSI), the call
`parse_sim_info(iccid, "")` still returns no `SimInfo`: the empty-IMSI
guard fires first and the call returns `None` with a warning, refuting
the claim that an empty `imsi` never makes the call fail. -/
theorem C1_counterexample :
    validate telusRec "8930212345678" "" = .ok true ∧
    parse_sim_info db1 none (.str "8930212345678") (.str "") =
      .ok (none, ["No IMSI from current device"]) :=
  ⟨rfl, rfl⟩

/-- C1, amended: for every database, site and valid (non-empty string)
`iccid`, calling `parse_sim_info` with an empty `imsi` string returns an
absent result with the `No IMSI` warning: the precondition for a
non-absent result requires a non-empty IMSI as well as a non-empty
ICCID; the empty-IMSI skip inside `validate` is unreachable from
`parse_sim_info`. -/
theorem C1_empty_imsi_returns_none (root : XML) (site : Option String) (iv : PyVal)
    (h : pyStrInvalid iv = false) :
    parse_sim_info root site iv (.str "") =
      .ok (none, ["No IMSI from current device"]) := by
  simp only [parse_sim_info, h, Bool.false_eq_true, if_false]
  rfl

/-- C1, witness for the amended theorem at a concrete input. -/
theorem C1_empty_imsi_witness :
    parse_sim_info db1 none (.str "8930212345678") (.str "") =
      .ok (none, ["No IMSI from current device"]) :=
  C1_empty_imsi_returns_none db1 none (.str "8930212345678") rfl

/-- C8: calling `parse_sim_info` with an `iccid` that is `None`, not a
string, or the empty string returns an absent result together with the
`No ICCID` warning, for every database, site and `imsi` argument; no
exception is raised. -/
theorem C8_invalid_iccid_returns_none (root : XML) (site : Option String)
    (iv mv : PyVal) (h : pyStrInvalid iv = true) :
    parse_sim_info root site iv mv =
      .ok (none, ["No ICCID from current device"]) := by
  simp [parse_sim_info, h]

/-- C8, witness at the three invalid `iccid` shapes. -/
theorem C8_invalid_iccid_witness :
    parse_sim_info db1 none .none (.str "302") =
      .ok (none, ["No ICCID from current device"]) ∧
    parse_sim_info db1 none .other (.str "302") =
      .ok (none, ["No ICCID from current device"]) ∧
    parse_sim_info db1 none (.str "") (.str "302") =
      .ok (none, ["No ICCID from current device"]) :=
  ⟨C8_invalid_iccid_returns_none db1 none .none (.str "302") rfl,
   C8_invalid_iccid_returns_none db1 none .other (.str "302") rfl,
   C8_invalid_iccid_returns_none db1 none (.str "") (.str "302") rfl⟩

/-- C7: when every operator record fails `validate` for the given
identifiers, `parse_sim_info` returns an absent result with the
`Unable to parse` warning, regardless of what the detail scan produced. -/
theorem C7_no_operator_match_returns_none (root sim_elements : XML)
    (site : Option String) (iv mv : PyVal) (d : Option DetailInfo)
    (hiv : pyStrInvalid iv = false) (hmv : pyStrInvalid mv = false)
    (hd : detailScan (pyStrVal iv) (root.findall ["simdb", "uicc"]) = .ok d)
    (hop : root.find ["simdb", "Operator"] = some sim_elements)
    (hall : ∀ x ∈ sim_elements.children,
      validate x (pyStrVal iv) (pyStrVal mv) = .ok false) :
    parse_sim_info root site iv mv =
      .ok (none, ["Unable to parse Sim Information"]) := by
  rw [parse_eq_of_scan root site iv mv d sim_elements hiv hmv hd hop]
  rw [operatorScan_none root site (pyStrVal iv) (pyStrVal mv) (detailApn d)
    sim_elements.children hall]

/-- C7, witness: in `db7` the detail record matches the ICCID but no
operator record does, and the lookup still returns absent. -/
theorem C7_no_operator_match_witness :
    parse_sim_info db7 none (.str "0001234567") (.str "999") =
      .ok (none, ["Unable to parse Sim Information"]) :=
  C7_no_operator_match_returns_none db7 opsE1 none (.str "0001234567") (.str "999")
    (some di7) rfl rfl rfl rfl
    (by
      intro x hx
      have hc : opsE1.children = [telusRec] := rfl
      rw [hc, List.mem_singleton] at hx
      subst hx
      rfl)

/-- C10: the parsed document is never mutated by lookups: after any
sequence of `parse_sim_info` calls the resolver state equals the
original document, and a subsequent identical lookup returns the same
result as against the original document. -/
theorem C10_database_never_mutated (site : Option String) (root : XML)
    (qs : List (PyVal × PyVal)) :
    (resolveSeq site root qs).2 = root ∧
    ∀ iv mv, parse_sim_info (resolveSeq site root qs).2 site iv mv =
      parse_sim_info root site iv mv := by
  have h2 : (resolveSeq site root qs).2 = root := by
    induction qs generalizing root with
    | nil => rfl
    | cons q rest ih =>
      obtain ⟨i, m⟩ := q
      show (resolveSeq site root rest).2 = root
      exact ih root
  exact ⟨h2, fun iv mv => by rw [h2]⟩

/-- C2, counterexample: the matched operator record's tag is
`AmarisoftNR` and site `QA` is configured, yet the returned `Carrier` is
the literal `Amarisoft_QA`, not the record's name with `_QA` appended
(`AmarisoftNR_QA`), refuting the claim. -/
theorem C2_counterexample :
    parse_sim_info db2 (some "QA") (.str "8930") (.str "2080") =
      .ok (some si2val, []) ∧
    si2val.Carrier ≠ amariNRRec.tag ++ "_" ++ "QA" :=
  ⟨rfl, by decide⟩

/-- C2, amended: when the matched operator record's tag contains
`"Amarisoft"` and a site `s` is configured, the returned `Carrier` is
the literal string `"Amarisoft_" ++ s` (the rest of the tag name is
discarded); this coincides with `<Name>_<site>` exactly when the tag is
the exact string `Amarisoft`. -/
theorem C2_amarisoft_carrier (root sim_elements e : XML) (s : String)
    (iv mv : PyVal) (si : SimInfo) (log : List String) (pre post : List XML)
    (h : parse_sim_info root (some s) iv mv = .ok (some si, log))
    (hop : root.find ["simdb", "Operator"] = some sim_elements)
    (hsplit : sim_elements.children = pre ++ e :: post)
    (hpre : ∀ x ∈ pre, validate x (pyStrVal iv) (pyStrVal mv) = .ok false)
    (he : validate e (pyStrVal iv) (pyStrVal mv) = .ok true)
    (hA : strContains e.tag "Amarisoft" = true) :
    si.Carrier = "Amarisoft_" ++ s := by
  obtain ⟨d, se, t, hd, hop2, hsc, hsi, hlog⟩ :=
    parse_success_elim root (some s) iv mv si log h
  rw [hop] at hop2
  have hse : sim_elements = se := Option.some.inj hop2
  subst hse
  rw [hsplit] at hsc
  rw [operatorScan_first root (some s) (pyStrVal iv) (pyStrVal mv) (detailApn d)
    pre post e hpre he] at hsc
  have ht : opMatched root (some s) (detailApn d) e = t :=
    Option.some.inj (Except.ok.inj hsc)
  rw [hsi, ← ht]
  show get_sim_carrier (some s) e = "Amarisoft_" ++ s
  simp [get_sim_carrier, hA]

/-- C2, witness for the amended theorem: resolving against `db2` with
site `QA` yields `Carrier = "Amarisoft_" ++ "QA"`. -/
theorem C2_amarisoft_carrier_witness : si2val.Carrier = "Amarisoft_" ++ "QA" :=
  C2_amarisoft_carrier db2 opsE2 amariNRRec "QA" (.str "8930") (.str "2080")
    si2val [] [] [] rfl rfl rfl
    (fun x hx => absurd hx (List.not_mem_nil x)) rfl rfl

/-- C3, counterexample: the matched operator record (tag `Amarisoft`,
site `L` configured) carries `Band = "7"`, but the returned `SimInfo`
has `Band = none` (the fetch is keyed on the derived carrier name
`Amarisoft_L`, for which no record exists), refuting the claim that the
returned `APN_TCP`/`PDP`/`Band` equal the matched record's values. -/
theorem C3_counterexample :
    parse_sim_info db3 (some "L") (.str "8930") (.str "2080") =
      .ok (some ⟨"Amarisoft_L", none, none, none, none, none, none, none,
        none, none, none, none, none⟩, []) ∧
    get_rf_band db3 "Amarisoft" = some "7" :=
  ⟨rfl, rfl⟩

/-- C3, amended: the returned `APN_TCP`, `PDP` and `Band` are obtained
by the configuration lookups `get_sim_apn_tcp` / `get_sim_pdp` /
`get_rf_band` keyed on the derived carrier name of the matched operator
record (the first record in document order passing `validate`); these
equal the matched record's own values exactly when the derived carrier
name is the record's tag and it is the first `Operator` child with that
tag. -/
theorem C3_config_fetched_by_carrier (root sim_elements e : XML)
    (site : Option String) (iv mv : PyVal) (si : SimInfo) (log : List String)
    (pre post : List XML)
    (h : parse_sim_info root site iv mv = .ok (some si, log))
    (hop : root.find ["simdb", "Operator"] = some sim_elements)
    (hsplit : sim_elements.children = pre ++ e :: post)
    (hpre : ∀ x ∈ pre, validate x (pyStrVal iv) (pyStrVal mv) = .ok false)
    (he : validate e (pyStrVal iv) (pyStrVal mv) = .ok true) :
    si.Carrier = get_sim_carrier site e ∧
    si.APN_TCP = get_sim_apn_tcp root (get_sim_carrier site e) ∧
    si.PDP = get_sim_pdp root (get_sim_carrier site e) ∧
    si.Band = get_rf_band root (get_sim_carrier site e) := by
  obtain ⟨d, se, t, hd, hop2, hsc, hsi, hlog⟩ :=
    parse_success_elim root site iv mv si log h
  rw [hop] at hop2
  have hse : sim_elements = se := Option.some.inj hop2
  subst hse
  rw [hsplit] at hsc
  rw [operatorScan_first root site (pyStrVal iv) (pyStrVal mv) (detailApn d)
    pre post e hpre he] at hsc
  have ht : opMatched root site (detailApn d) e = t :=
    Option.some.inj (Except.ok.inj hsc)
  rw [hsi, ← ht]
  exact ⟨rfl, rfl, rfl, rfl⟩

/-- C3, witness for the amended theorem: in `db1` the `Telus` record is
first and the derived carrier is its tag, so the fetched values are the
record's own. -/
theorem C3_config_fetched_witness :
    si1val.Carrier = get_sim_carrier none telusRec ∧
    si1val.APN_TCP = get_sim_apn_tcp db1 (get_sim_carrier none telusRec) ∧
    si1val.PDP = get_sim_pdp db1 (get_sim_carrier none telusRec) ∧
    si1val.Band = get_rf_band db1 (get_sim_carrier none telusRec) :=
  C3_config_fetched_by_carrier db1 opsE1 telusRec none
    (.str "8930212345678") (.str "302720508999") si1val [] [] [] rfl rfl rfl
    (fun x hx => absurd hx (List.not_mem_nil x)) rfl

/-- C4, counterexample: a database whose `uicc` record lacks an `iccid`
child makes `parse_sim_info` raise `AttributeError`
(`uicc.find("iccid").text` on `None`) instead of returning a normal
value, refuting the claim that no lookup ever raises. -/
theorem C4_counterexample :
    parse_sim_info db4 none (.str "123") (.str "456") =
      .error .attributeError :=
  rfl

/-- C4, amended: `parse_sim_info` returns a normal value (no exception)
on every input provided the document is structurally well formed: the
`simdb/Operator` element exists, every `simdb/uicc` record has an
`iccid` child with text, and every operator record has `ICCID_prefix`
and `IMSI_prefixes` children with text.  All no-match conditions are
then normal returns. -/
theorem C4_no_exception_when_wf (root sim_elements : XML) (site : Option String)
    (iv mv : PyVal)
    (hop : root.find ["simdb", "Operator"] = some sim_elements)
    (hu : ∀ u ∈ root.findall ["simdb", "uicc"], wfUicc u)
    (hx : ∀ x ∈ sim_elements.children, wfOperatorRecord x) :
    ∃ v, parse_sim_info root site iv mv = .ok v := by
  cases hiv : pyStrInvalid iv with
  | true =>
    exact ⟨(none, ["No ICCID from current device"]), by simp [parse_sim_info, hiv]⟩
  | false =>
  cases hmv : pyStrInvalid mv with
  | true =>
    exact ⟨(none, ["No IMSI from current device"]), by simp [parse_sim_info, hiv, hmv]⟩
  | false =>
  obtain ⟨d, hd⟩ := detailScan_ok_of_wf (pyStrVal iv) (root.findall ["simdb", "uicc"]) hu
  obtain ⟨r, hr⟩ := operatorScan_ok_of_wf root site (pyStrVal iv) (pyStrVal mv)
    (detailApn d) sim_elements.children hx
  rw [parse_eq_of_scan root site iv mv d sim_elements hiv hmv hd hop, hr]
  cases r with
  | none => exact ⟨_, rfl⟩
  | some t => exact ⟨_, rfl⟩

/-- C4, witness for the amended theorem on the well-formed `db1`. -/
theorem C4_no_exception_witness :
    ∃ v, parse_sim_info db1 none (.str "8930212345678") (.str "302720508999") = .ok v :=
  C4_no_exception_when_wf db1 opsE1 none (.str "8930212345678") (.str "302720508999")
    rfl
    (by
      intro u hu2
      have hc : db1.findall ["simdb", "uicc"] = [uiccRec] := rfl
      rw [hc, List.mem_singleton] at hu2
      subst hu2
      exact ⟨_, _, rfl, rfl⟩)
    (by
      intro x hx2
      have hc : opsE1.children = [telusRec] := rfl
      rw [hc, List.mem_singleton] at hx2
      subst hx2
      exact ⟨⟨_, _, rfl, rfl⟩, ⟨_, _, rfl, rfl⟩⟩)

/-- C5: a detail record's non-absent `apn` takes priority: if the detail
scan matched a record whose `apn` is present, `SimInfo.APN` equals it;
if the detail scan produced no `apn`, `SimInfo.APN` is the operator
configuration's APN fetched for the returned carrier. -/
theorem C5_detail_apn_overrides (root : XML) (site : Option String) (iv mv : PyVal)
    (si : SimInfo) (log : List String) (d : Option DetailInfo)
    (h : parse_sim_info root site iv mv = .ok (some si, log))
    (hd : detailScan (pyStrVal iv) (root.findall ["simdb", "uicc"]) = .ok d) :
    (∀ di a, d = some di → di.apn = some a → si.APN = some a) ∧
    (detailApn d = none → si.APN = get_sim_apn root si.Carrier) := by
  obtain ⟨d2, se, t, hd2, hop2, hsc, hsi, hlog⟩ :=
    parse_success_elim root site iv mv si log h
  have hdd : d = d2 := Except.ok.inj (hd.symm.trans hd2)
  subst hdd
  obtain ⟨e, hmem, ht⟩ := operatorScan_mem root site (pyStrVal iv) (pyStrVal mv)
    (detailApn d) se.children t hsc
  constructor
  · intro di a hdi hapn
    subst hdi
    rw [hsi, ht]
    show (opMatched root site (detailApn (some di)) e).apn = some a
    have : detailApn (some di) = some a := by simp [detailApn, hapn]
    rw [this]
    exact opMatched_apn_some root site a e
  · intro hnone
    rw [hsi, ht]
    show (opMatched root site (detailApn d) e).apn =
      get_sim_apn root (mkSimInfo (opMatched root site (detailApn d) e) d).Carrier
    rw [hnone]
    exact opMatched_apn_none root site e

/-- C5, witness: against `db5` the detail record's `apn` overrides the
operator APN, and against `db1` with no detail `apn` the operator
configuration's APN is used. -/
theorem C5_detail_apn_witness :
    si5val.APN = some "detail.apn" ∧
    si9val.APN = get_sim_apn db1 si9val.Carrier :=
  ⟨(C5_detail_apn_overrides db5 none (.str "893021234") (.str "302720")
      si5val [] (some di5) rfl rfl).1 di5 "detail.apn" rfl rfl,
   (C5_detail_apn_overrides db1 none (.str "893029999999") (.str "302111")
      si9val [] none rfl rfl).2 rfl⟩

/-- C6: the operator matching condition and scan order: a record with
`ICCID_prefix` text `tI` and `IMSI_prefixes` text `tM` passes `validate`
exactly when at least one comma-separated `ICCID_prefix` entry occurs as
a substring anywhere inside `iccid` and, when `imsi` is non-empty, at
least one comma-separated `IMSI_prefixes` entry occurs as a substring of
`imsi`; and the scan visits records in document order, the first
matching record determining the result irrespective of later records. -/
theorem C6_match_condition_and_order :
    (∀ (x pe qe : XML) (tI tM iccid imsi : String),
        x.find ["ICCID_prefix"] = some pe → pe.text = some tI →
        x.find ["IMSI_prefixes"] = some qe → qe.text = some tM →
        validate x iccid imsi = .ok (specOperatorMatch iccid imsi tI tM)) ∧
    (∀ (root : XML) (site : Option String) (iccid imsi : String)
        (apn0 : Option String) (pre post : List XML) (e : XML),
        (∀ x ∈ pre, validate x iccid imsi = .ok false) →
        validate e iccid imsi = .ok true →
        operatorScan root site iccid imsi apn0 (pre ++ e :: post) =
          .ok (some (opMatched root site apn0 e))) :=
  ⟨fun x pe qe tI tM iccid imsi h1 h2 h3 h4 =>
      validate_eq_spec x pe qe tI tM iccid imsi h1 h2 h3 h4,
   fun root site iccid imsi apn0 pre post e hpre he =>
      operatorScan_first root site iccid imsi apn0 pre post e hpre he⟩

/-- C6, witness at the `Telus` record in `db1`. -/
theorem C6_match_condition_witness :
    validate telusRec "8930212345678" "302720" =
      .ok (specOperatorMatch "8930212345678" "302720" "89302" "302") ∧
    operatorScan db1 none "8930212345678" "302720" none ([] ++ telusRec :: []) =
      .ok (some (opMatched db1 none none telusRec)) :=
  ⟨C6_match_condition_and_order.1 telusRec _ _ "89302" "302"
      "8930212345678" "302720" rfl rfl rfl rfl,
   C6_match_condition_and_order.2 db1 none "8930212345678" "302720" none [] [] telusRec
      (fun x hx => absurd hx (List.not_mem_nil x)) rfl⟩

/-- C9, counterexample: with no detail record matching, the returned
detail fields are indeed all absent, but `SimInfo.APN` is `none` even
though the matched operator record (tag `Amarisoft`, site `S`
configured) has configured APN `op.apn`: the APN is fetched under the
derived carrier name `Amarisoft_S`, refuting the claim that it equals
the matched record's configured APN. -/
theorem C9_counterexample :
    parse_sim_info db9 (some "S") (.str "8930") (.str "2080") =
      .ok (some ⟨"Amarisoft_S", none, none, none, none, none, none, none,
        none, none, none, none, none⟩, []) ∧
    get_sim_apn db9 "Amarisoft" = some "op.apn" :=
  ⟨rfl, rfl⟩

/-- C9, amended: when the detail scan matched nothing, the eight detail
fields of a returned `SimInfo` are all absent and `SimInfo.APN` is the
operator configuration's APN fetched for the returned carrier name
(which is the matched record's configured APN exactly when the derived
carrier name is the record's tag and it is the first `Operator` child
with that tag). -/
theorem C9_no_detail_fields_absent (root : XML) (site : Option String)
    (iv mv : PyVal) (si : SimInfo) (log : List String)
    (h : parse_sim_info root site iv mv = .ok (some si, log))
    (hd : detailScan (pyStrVal iv) (root.findall ["simdb", "uicc"]) = .ok none) :
    si.Iccid = none ∧ si.Imsi = none ∧ si.Mcc = none ∧ si.Mnc = none ∧
    si.Tel = none ∧ si.Pin = none ∧ si.Puk = none ∧ si.Smsc = none ∧
    si.APN = get_sim_apn root si.Carrier := by
  obtain ⟨d2, se, t, hd2, hop2, hsc, hsi, hlog⟩ :=
    parse_success_elim root site iv mv si log h
  have hdd : (none : Option DetailInfo) = d2 := Except.ok.inj (hd.symm.trans hd2)
  rw [← hdd] at hsc hsi
  obtain ⟨e, hmem, ht⟩ := operatorScan_mem root site (pyStrVal iv) (pyStrVal mv)
    (detailApn none) se.children t hsc
  rw [hsi, ht]
  exact ⟨rfl, rfl, rfl, rfl, rfl, rfl, rfl, rfl,
    opMatched_apn_none root site e⟩

/-- C9, witness for the amended theorem against `db1` with a
non-matching detail record. -/
theorem C9_no_detail_witness :
    si9val.Iccid = none ∧ si9val.Imsi = none ∧ si9val.Mcc = none ∧
    si9val.Mnc = none ∧ si9val.Tel = none ∧ si9val.Pin = none ∧
    si9val.Puk = none ∧ si9val.Smsc = none ∧
    si9val.APN = get_sim_apn db1 si9val.Carrier :=
  C9_no_detail_fields_absent db1 none (.str "893029998887") (.str "302111")
    si9val [] rfl rfl

end SimLib
